import Mathlib

/-!
Verification development for the Oblivion Python SDK
(`packages/sdk-python/src/oblivion/client.py` and `models.py`).

The client is an asyncio Socket.IO client.  We embed it shallowly:

* pydantic model validation becomes `Except PyErr` valued functions over a
  flat JSON-object representation of inbound wire data;
* the Socket.IO / Engine.IO inbound dispatch loop becomes a serial fold over
  a list of inbound frames, where an exception escaping a registered event
  handler is caught and logged by the transport layer (Engine.IO wraps every
  async message handler in a catch-all that logs "<event> async handler
  error" and keeps the receive loop alive);
* the `_pending_tools` dict becomes an insertion-ordered list of request ids;
* the per-request race between an inbound `tool_result` and the
  `asyncio.wait_for` timeout becomes a step relation on a small state record.
  The timeout is not atomic in the program, and the model keeps its two
  phases apart: when the timer fires, `wait_for` first *cancels* the shared
  future, and only later — after at least one event-loop suspension point —
  does `request_tool`'s `except asyncio.TimeoutError` clause run and pop the
  id from `_pending_tools`.  In the window between the two, the id is still
  in the dict, so a matching inbound `tool_result` passes the membership
  guard and calls `set_result` on a cancelled future, which raises
  `InvalidStateError`; the exception escapes `on_tool_result` into the
  transport layer, where it is caught and logged like any handler error.
-/

namespace Oblivion

/-- Python exceptions the embedded code can raise. -/
inductive PyErr
  | valueError (msg : String)
  | invalidStateError
  | validationError
  | httpStatusError (status : Nat)
  deriving DecidableEq

/-- Decidable equality on `Except`, for evaluating witness statements. -/
instance {ε α : Type} [DecidableEq ε] [DecidableEq α] :
    DecidableEq (Except ε α) := fun a b =>
  match a, b with
  | .error e1, .error e2 =>
      if h : e1 = e2 then .isTrue (by rw [h]) else .isFalse (by simp [h])
  | .ok v1, .ok v2 =>
      if h : v1 = v2 then .isTrue (by rw [h]) else .isFalse (by simp [h])
  | .error _, .ok _ => .isFalse (by simp)
  | .ok _, .error _ => .isFalse (by simp)

/-- Flat JSON leaf values appearing as fields of inbound payload objects. -/
inductive JLeaf
  | jnull
  | jbool (b : Bool)
  | jstr (s : String)
  | jnum (n : Int)
  deriving DecidableEq

/-- A (flat) JSON object: the payload dictionary of an inbound event. -/
abbrev JObj := List (String × JLeaf)

/-- Dictionary field lookup. -/
def getField (o : JObj) (k : String) : Option JLeaf :=
  (o.find? (fun kv => kv.1 == k)).map (fun kv => kv.2)

/-- Lookup honouring a pydantic alias together with `populate_by_name`:
the alias is tried first, then the field name. -/
def getAliased (o : JObj) (aliasKey fieldName : String) : Option JLeaf :=
  match getField o aliasKey with
  | some v => some v
  | none => getField o fieldName

/-- Required `str` field (pydantic rejects a missing or non-string value). -/
def reqStr (o : JObj) (aliasKey fieldName : String) : Except PyErr String :=
  match getAliased o aliasKey fieldName with
  | some (JLeaf.jstr s) => .ok s
  | _ => .error PyErr.validationError

/-- Required `bool` field. -/
def reqBool (o : JObj) (aliasKey fieldName : String) : Except PyErr Bool :=
  match getAliased o aliasKey fieldName with
  | some (JLeaf.jbool b) => .ok b
  | _ => .error PyErr.validationError

/-- Optional `str | None` field defaulting to `None`. -/
def optStrField (o : JObj) (aliasKey fieldName : String) : Except PyErr (Option String) :=
  match getAliased o aliasKey fieldName with
  | none => .ok none
  | some JLeaf.jnull => .ok none
  | some (JLeaf.jstr s) => .ok (some s)
  | some _ => .error PyErr.validationError

/-- Optional `Any | None` field: any value accepted, `None` when absent or null. -/
def optAnyField (o : JObj) (k : String) : Option JLeaf :=
  match getField o k with
  | some JLeaf.jnull => none
  | some v => some v
  | none => none

/-- EventType enumeration (models.py lines 14-29). -/
inductive EventType
  | task_assigned
  | context_update
  | wake_up
  | tool_result
  | heartbeat
  | agent_ready
  | tool_request
  | status_update
  deriving DecidableEq

/-- String coercion of the `EventType` enum, as pydantic performs when
validating the `type` field of an inbound envelope. -/
def EventType.ofString (s : String) : Option EventType :=
  if s = "task_assigned" then some .task_assigned
  else if s = "context_update" then some .context_update
  else if s = "wake_up" then some .wake_up
  else if s = "tool_result" then some .tool_result
  else if s = "heartbeat" then some .heartbeat
  else if s = "agent_ready" then some .agent_ready
  else if s = "tool_request" then some .tool_request
  else if s = "status_update" then some .status_update
  else none

/-- AgentStatus enumeration (models.py lines 32-37). -/
inductive AgentStatus
  | idle
  | working
  | error
  deriving DecidableEq

/-- Python `AgentStatus(status)` on a string: returns the member or raises
`ValueError` when the string is not one of the enum values. -/
def AgentStatus.ofString (s : String) : Except PyErr AgentStatus :=
  if s = "idle" then .ok .idle
  else if s = "working" then .ok .working
  else if s = "error" then .ok .error
  else .error (PyErr.valueError s)

/-- TaskAssignedPayload (models.py lines 53-65). -/
structure TaskAssignedPayload where
  task_id : String
  project_mapping_id : String
  clickup_task_id : String
  slack_channel_id : String
  slack_thread_ts : String
  title : String
  description : Option String := none
  assigned_at : String
  deriving DecidableEq

/-- Pydantic validation of `TaskAssignedPayload` (aliases per models.py). -/
def TaskAssignedPayload.model_validate (o : JObj) : Except PyErr TaskAssignedPayload :=
  match reqStr o "taskId" "task_id", reqStr o "projectMappingId" "project_mapping_id",
        reqStr o "clickupTaskId" "clickup_task_id", reqStr o "slackChannelId" "slack_channel_id",
        reqStr o "slackThreadTs" "slack_thread_ts", reqStr o "title" "title",
        optStrField o "description" "description", reqStr o "assignedAt" "assigned_at" with
  | .ok a, .ok b, .ok c, .ok d, .ok e, .ok f, .ok g, .ok h =>
      .ok { task_id := a, project_mapping_id := b, clickup_task_id := c,
            slack_channel_id := d, slack_thread_ts := e, title := f,
            description := g, assigned_at := h }
  | _, _, _, _, _, _, _, _ => .error PyErr.validationError

/-- ToolResultPayload (models.py lines 103-111). -/
structure ToolResultPayload where
  request_id : String
  success : Bool
  result : Option JLeaf := none
  error : Option String := none
  deriving DecidableEq

/-- Pydantic validation of `ToolResultPayload`. -/
def ToolResultPayload.model_validate (o : JObj) : Except PyErr ToolResultPayload :=
  match reqStr o "requestId" "request_id", reqBool o "success" "success",
        optStrField o "error" "error" with
  | .ok rid, .ok s, .ok err =>
      .ok { request_id := rid, success := s, result := optAnyField o "result", error := err }
  | _, _, _ => .error PyErr.validationError

/-- Raw inbound frame data as handed to a Socket.IO handler, before
`BaseEvent.model_validate` runs (absent keys are `none`). -/
structure RawData where
  type : Option String := none
  payload : Option JObj := none
  timestamp : Option String := none
  deriving DecidableEq

/-- BaseEvent envelope (models.py lines 146-161). -/
structure BaseEvent where
  type : EventType
  payload : JObj
  timestamp : String
  deriving DecidableEq

/-- Pydantic validation of the `BaseEvent` envelope: `type` must coerce to
the `EventType` enum, `payload` must be a dict, `timestamp` a string. -/
def BaseEvent.model_validate (d : RawData) : Except PyErr BaseEvent :=
  match d.type, d.payload, d.timestamp with
  | some t, some p, some ts =>
      match EventType.ofString t with
      | some et => .ok { type := et, payload := p, timestamp := ts }
      | none => .error PyErr.validationError
  | _, _, _ => .error PyErr.validationError

/-- ConnectedResponse (models.py lines 169-175): the server's connection
acknowledgment carrying the assigned agent identity. -/
structure ConnectedResponse where
  message : String
  agent_id : String
  server_time : String
  deriving DecidableEq

/-- A registered user event handler, abstracted to its observable behaviour
at the dispatcher boundary: whether awaiting it raises an exception. -/
structure Handler where
  raises : Bool
  deriving DecidableEq

/-- Outbound frames the client emits over the `/agents` namespace. -/
inductive OutFrame
  | heartbeatOut (ping : Bool) (serverTime : String)
  | agentReady (capabilities : List String) (version : String)
  | statusUpdate (status : AgentStatus) (task_id : Option String) (message : Option String)
  | toolRequest (request_id : String) (tool : String) (action : String)
  deriving DecidableEq

/-- Mutable state of an `OblivionClient` instance (client.py lines 85-116).
`pending_tools` is the key set of the `_pending_tools` dict, in insertion
order; every future held in the dict is still unresolved (it is popped from
the dict in the same step that resolves it). -/
structure ClientState where
  capabilities : List String := []
  version : String := "0.1.0"
  auto_reconnect : Bool := true
  token : Option String := none
  agent_id : Option String := none
  connected : Bool := false
  should_run : Bool := false
  task_handlers : List Handler := []
  tool_result_handlers : List Handler := []
  pending_tools : List String := []
  deriving DecidableEq

/-- Steps of a `tool_result` dispatch, in execution order: the pending
future resolution (client.py lines 189-191) and the generic observer
handler invocations (lines 193-197). -/
inductive DispatchAction
  | resolveFuture (request_id : String)
  | observerCall (i : Nat)
  deriving DecidableEq

/-- Per-handler invocation loop with the per-handler try/except
(client.py lines 147-151): starting index `i`, returns the indices of the
handlers that were invoked and the error-log lines produced by handlers
that raised. -/
def runHandlersFrom (logMsg : String) (i : Nat) : List Handler → List Nat × List String
  | [] => ([], [])
  | h :: rest =>
      let r := runHandlersFrom logMsg (i + 1) rest
      (i :: r.1, (if h.raises then [logMsg] else []) ++ r.2)

/-- Invocation loop over a handler list from index 0. -/
def runHandlers (logMsg : String) (hs : List Handler) : List Nat × List String :=
  runHandlersFrom logMsg 0 hs

/-- Internal `on_task_assigned` Socket.IO handler (client.py lines 141-151):
validate envelope, validate payload, then invoke each registered task
handler under a per-handler try/except.  A validation failure escapes the
handler as an exception. -/
def on_task_assigned (hs : List Handler) (d : RawData) :
    Except PyErr (List Nat × List String) :=
  match BaseEvent.model_validate d with
  | .error e => .error e
  | .ok event =>
      match TaskAssignedPayload.model_validate event.payload with
      | .error e => .error e
      | .ok _payload => .ok (runHandlers "Task handler error" hs)

/-- What a single inbound frame's dispatch produced. -/
structure FrameOutcome where
  invoked : List Nat := []
  logged : List String := []
  emitted : List OutFrame := []
  delivered : Option ToolResultPayload := none
  actions : List DispatchAction := []
  deriving DecidableEq

/-- Internal `on_tool_result` Socket.IO handler (client.py lines 182-197):
validate, then pop-and-resolve the pending future for `request_id` if the
id is in `_pending_tools`, then invoke the generic observer handlers.
`delivered` is the value handed to the awaiting `request_tool` caller via
`future.set_result`; `actions` records execution order. -/
def on_tool_result (st : ClientState) (d : RawData) :
    Except PyErr (ClientState × FrameOutcome) :=
  match BaseEvent.model_validate d with
  | .error e => .error e
  | .ok event =>
      match ToolResultPayload.model_validate event.payload with
      | .error e => .error e
      | .ok payload =>
          let reg :=
            if st.pending_tools.contains payload.request_id then
              (st.pending_tools.erase payload.request_id, some payload,
                [DispatchAction.resolveFuture payload.request_id])
            else (st.pending_tools, none, [])
          let hr := runHandlers "Tool result handler error" st.tool_result_handlers
          .ok ({ st with pending_tools := reg.1 },
            { invoked := hr.1, logged := hr.2, delivered := reg.2.1,
              actions := reg.2.2 ++ hr.1.map DispatchAction.observerCall })

/-- Internal `on_connected` Socket.IO handler (client.py lines 123-131):
record the server-assigned agent id, mark connected, emit `agent_ready`. -/
def on_connected (st : ClientState) (resp : ConnectedResponse) :
    ClientState × OutFrame :=
  ({ st with agent_id := some resp.agent_id, connected := true },
    OutFrame.agentReady st.capabilities st.version)

/-- Inbound frames as delivered by the transport to the registered
Socket.IO handlers, tagged by event name. -/
inductive InFrame
  | taskAssignedIn (data : RawData)
  | toolResultIn (data : RawData)
  | heartbeatIn (data : RawData)
  deriving DecidableEq

/-- Log line produced by the Engine.IO catch-all when an exception escapes
an async event handler. -/
def eioCatchLog (event : String) : String := event ++ " async handler error"

/-- Dispatch of one inbound frame.  The internal handler for the frame's
event name runs; an exception escaping it (e.g. a pydantic
`ValidationError`) is caught and logged by the Engine.IO layer, which keeps
the connection and the receive loop alive.  The internal `on_heartbeat`
handler (client.py lines 199-208) performs no validation and answers with
exactly one outbound heartbeat frame. -/
def dispatchFrame (st : ClientState) (f : InFrame) : ClientState × FrameOutcome :=
  match f with
  | .taskAssignedIn d =>
      match on_task_assigned st.task_handlers d with
      | .error _ => (st, { logged := [eioCatchLog "task_assigned"] })
      | .ok r => (st, { invoked := r.1, logged := r.2 })
  | .toolResultIn d =>
      match on_tool_result st d with
      | .error _ => (st, { logged := [eioCatchLog "tool_result"] })
      | .ok r => r
  | .heartbeatIn _ =>
      (st, { emitted := [OutFrame.heartbeatOut true ""] })

/-- Serial receive loop: the transport delivers frames in arrival order and
each frame's dispatch completes before the next frame's begins. -/
def dispatchLoop (st : ClientState) : List InFrame → ClientState × List FrameOutcome
  | [] => (st, [])
  | f :: rest =>
      let r := dispatchFrame st f
      let rr := dispatchLoop r.1 rest
      (rr.1, r.2 :: rr.2)

/-- Response of the `POST /auth/token` endpoint. -/
structure AuthResponse where
  status : Nat
  accessToken : String
  deriving DecidableEq

/-- httpx `Response.raise_for_status`: raises `HTTPStatusError` unless the
status code is a 2xx success code. -/
def raise_for_status (r : AuthResponse) : Except PyErr Unit :=
  if 200 ≤ r.status ∧ r.status ≤ 299 then .ok ()
  else .error (PyErr.httpStatusError r.status)

/-- The `_authenticate` method (client.py lines 246-258): POST the
credentials, raise for a non-2xx status, return the access token. -/
def _authenticate (r : AuthResponse) : Except PyErr String :=
  match raise_for_status r with
  | .error e => .error e
  | .ok _ => .ok r.accessToken

/-- Externally visible effects of `connect()`. -/
inductive ConnectEffect
  | authCall
  | wsConnect
  deriving DecidableEq

/-- The `connect` method (client.py lines 270-291): set `_should_run`,
authenticate (logging and re-raising an `HTTPStatusError`), and only on
success proceed to the WebSocket handshake (`self._sio.connect`). -/
def connect (st : ClientState) (resp : AuthResponse) :
    (ClientState × List ConnectEffect) × Except PyErr Unit :=
  let st1 := { st with should_run := true }
  match _authenticate resp with
  | .error e => ((st1, [ConnectEffect.authCall]), .error e)
  | .ok tok =>
      (({ st1 with token := some tok },
        [ConnectEffect.authCall, ConnectEffect.wsConnect]), .ok ())

/-- The `disconnect` method (client.py lines 304-310): clear `_should_run`,
close the transport, clear `_connected`.  No other field is touched. -/
def disconnect (st : ClientState) : ClientState :=
  { st with should_run := false, connected := false }

/-- The `update_status` method (client.py lines 331-357): coerce the status
string through the `AgentStatus` enum (raising `ValueError` on an unknown
value, before anything is emitted), then emit one `status_update` frame.
The method mutates no client field, so the state is returned unchanged. -/
def update_status (st : ClientState) (status : String)
    (task_id message : Option String) :
    ClientState × List OutFrame × Option PyErr :=
  match AgentStatus.ofString status with
  | .error e => (st, [], some e)
  | .ok s => (st, [OutFrame.statusUpdate s task_id message], none)

/-- The failure result synthesized by `request_tool` on timeout
(client.py lines 404-408). -/
def timeoutResult (request_id : String) : ToolResultPayload :=
  { request_id := request_id, success := false, result := none,
    error := some "Tool request timed out" }

/-- Registration half of `request_tool` (client.py lines 379-397): create a
future, insert it into `_pending_tools` under the fresh id, and emit the
`tool_request` frame. -/
def request_tool_register (st : ClientState) (request_id : String) : ClientState :=
  { st with pending_tools := st.pending_tools ++ [request_id] }

/-- Timeout branch of `request_tool` (client.py lines 402-408):
`asyncio.TimeoutError` is caught, the entry is popped with a default (a
no-op when the id is already gone, never raising), and the synthesized
failure result is returned instead of raising. -/
def request_tool_on_timeout (st : ClientState) (request_id : String) :
    ClientState × ToolResultPayload :=
  ({ st with pending_tools := st.pending_tools.erase request_id },
    timeoutResult request_id)

/-- A full `request_tool` call against a server that never sends a matching
`tool_result`: register, emit the request frame, then the `wait_for`
timeout elapses and the timeout branch runs. -/
def request_tool_noAnswer (st : ClientState) (tool action request_id : String) :
    ClientState × OutFrame × ToolResultPayload :=
  let st1 := request_tool_register st request_id
  let out := OutFrame.toolRequest request_id tool action
  let r := request_tool_on_timeout st1 request_id
  (r.1, out, r.2)

/-- How the awaiting `request_tool` caller was unblocked. -/
inductive Resolution
  | byResult (p : ToolResultPayload)
  | byTimeout (p : ToolResultPayload)
  deriving DecidableEq

/-- State of an asyncio future: still pending, resolved by `set_result`, or
cancelled (what `wait_for` does to the awaited future when its timeout
fires). -/
inductive FutureState
  | pending
  | resolved (v : ToolResultPayload)
  | cancelled
  deriving DecidableEq

/-- State of one registered tool request: whether its id is still a key of
`_pending_tools`, the state of the future stored there, and the value
returned to the caller blocked in `asyncio.wait_for` (if it has
returned). -/
structure RaceState where
  request_id : String
  inMap : Bool
  future : FutureState
  callerResult : Option Resolution
  deriving DecidableEq

/-- State right after `request_tool` registered the id (client.py 389-390). -/
def registered (rid : String) : RaceState :=
  { request_id := rid, inMap := true, future := FutureState.pending,
    callerResult := none }

/-- Events that can act on a registered request.  Each runs atomically on
the single event loop, but the timeout spans two of them: `timerFires` is
the timeout callback inside `asyncio.wait_for` (it cancels the awaited
future), and `timeoutExceptRuns` is the `except asyncio.TimeoutError`
clause of `request_tool` (client.py 402-408), which runs strictly later,
after at least one further event-loop iteration.  Between the two, other
callbacks — in particular the dispatch of an inbound `tool_result` — can
run. -/
inductive RaceEvent
  | inboundResult (p : ToolResultPayload)
  | timerFires
  | timeoutExceptRuns
  deriving DecidableEq

/-- One event acting on one registered request.  The second component is
the exception, if any, that escaped into the dispatch/transport layer
(where it is caught and logged, and the loop continues).

`inboundResult` follows `on_tool_result` (client.py lines 189-191): under
the `request_id in self._pending_tools` membership test, the entry is
popped and then `future.set_result(payload)` runs.  On a pending future
this resolves it and `wait_for` returns the value to the caller (modern
`wait_for` returns the result even when the timer races in after
completion).  On a future that is not pending — cancelled by the timeout,
or already resolved — `set_result` raises `InvalidStateError`, which
escapes `on_tool_result` after the pop already happened.  A result for an
id that is not in the map is a no-op.

`timerFires` is `wait_for`'s timeout callback: it cancels the awaited
future if the future is not yet done, and does nothing otherwise.

`timeoutExceptRuns` is the `except asyncio.TimeoutError` body: it is
enabled once the future was cancelled and the caller has not returned; it
pops the id with a default (a no-op when the id is already gone, never
raising) and hands the synthesized failure result to the caller. -/
def raceStep (st : RaceState) : RaceEvent → RaceState × Option PyErr
  | .inboundResult p =>
      if st.inMap ∧ p.request_id = st.request_id then
        match st.future with
        | .pending =>
            ({ st with
                inMap := false, future := FutureState.resolved p,
                callerResult := some (Resolution.byResult p) }, none)
        | _ => ({ st with inMap := false }, some PyErr.invalidStateError)
      else (st, none)
  | .timerFires =>
      match st.future with
      | .pending => ({ st with future := FutureState.cancelled }, none)
      | _ => (st, none)
  | .timeoutExceptRuns =>
      if st.future = FutureState.cancelled ∧ st.callerResult = none then
        ({ st with
            inMap := false,
            callerResult := some (Resolution.byTimeout (timeoutResult st.request_id)) },
          none)
      else (st, none)

/-- Run a sequence of events over one registered request, collecting the
exceptions that escaped into the dispatch layer along the way. -/
def runRace (st : RaceState) : List RaceEvent → RaceState × List PyErr
  | [] => (st, [])
  | e :: evs =>
      let r := raceStep st e
      let rr := runRace r.1 evs
      (rr.1, r.2.toList ++ rr.2)

/-- The interleaving exhibiting the race window: the timeout fires (the
future is cancelled), a matching `tool_result` arrives before the except
clause has popped the id, then the except clause runs. -/
def raceWindowTrace : List RaceEvent :=
  [RaceEvent.timerFires,
   RaceEvent.inboundResult
     { request_id := "r1", success := true, result := none, error := none },
   RaceEvent.timeoutExceptRuns]

/-! ### Helper lemmas -/

/-- Every handler in the list is invoked, whatever any of them raises. -/
theorem runHandlersFrom_invoked (m : String) :
    ∀ (hs : List Handler) (i : Nat),
      (runHandlersFrom m i hs).1 = List.range' i hs.length := by
  intro hs
  induction hs with
  | nil => intro i; simp [runHandlersFrom]
  | cons a t ih =>
      intro i
      simp [runHandlersFrom, ih (i + 1), List.range'_succ]

/-- From index 0 the invoked indices are exactly `range`. -/
theorem runHandlers_invoked (m : String) (hs : List Handler) :
    (runHandlers m hs).1 = List.range hs.length := by
  rw [runHandlers, runHandlersFrom_invoked, List.range_eq_range']

/-- One error line is logged per raising handler. -/
theorem runHandlersFrom_logged (m : String) :
    ∀ (hs : List Handler) (i : Nat),
      (runHandlersFrom m i hs).2.length
        = (hs.filter (fun a => a.raises)).length := by
  intro hs
  induction hs with
  | nil => intro i; simp [runHandlersFrom]
  | cons a t ih =>
      intro i
      by_cases hr : a.raises <;>
        simp [runHandlersFrom, ih (i + 1), List.filter_cons, hr]

/-! ### Claims -/

/-- C1 (code behaviour at the failing input).  In the window after
`wait_for` cancelled the future but before `request_tool`'s except clause
pops the id, a matching inbound `tool_result` passes the client.py:189
membership guard, pops the entry, and calls `set_result` on the cancelled
future: `InvalidStateError` escapes into the dispatch layer — the losing
action raises instead of being a no-op, contradicting the claim.  The
caller still ends with exactly one resolution, the synthesized timeout
result. -/
theorem timeout_race_loser_raises :
    (runRace (registered "r1") raceWindowTrace).2 = [PyErr.invalidStateError] ∧
    (runRace (registered "r1") raceWindowTrace).1 =
      { request_id := "r1", inMap := false, future := FutureState.cancelled,
        callerResult := some (Resolution.byTimeout (timeoutResult "r1")) } :=
  ⟨rfl, rfl⟩

/-- C2 counterexample: the synthesized timeout failure carries the error
string "Tool request timed out", not the claimed "timed out". -/
theorem request_tool_timeout_error_string :
    (request_tool_noAnswer {} "search" "query" "r1").2.2 ≠
      { request_id := "r1", success := false, result := none,
        error := some "timed out" } := by
  decide

/-- C2 (amended). A `request_tool` call against a server that never
answers does not raise: when the timeout elapses it returns the failure
result with `success = false` and error string "Tool request timed out"
for that requestId, and the pending-entry count returns to zero. -/
theorem request_tool_timeout_fails_as_data (st : ClientState)
    (tool action rid : String) (h : st.pending_tools = []) :
    (request_tool_noAnswer st tool action rid).2.2 =
      { request_id := rid, success := false, result := none,
        error := some "Tool request timed out" } ∧
    (request_tool_noAnswer st tool action rid).1.pending_tools = [] := by
  refine ⟨rfl, ?_⟩
  simp [request_tool_noAnswer, request_tool_on_timeout, request_tool_register, h]

/-- Witness for C2 (amended) on a fresh client. -/
theorem request_tool_timeout_fails_as_data_witness :
    ({} : ClientState).pending_tools = [] ∧
    ((request_tool_noAnswer {} "search" "query" "r1").2.2 =
      { request_id := "r1", success := false, result := none,
        error := some "Tool request timed out" } ∧
    (request_tool_noAnswer {} "search" "query" "r1").1.pending_tools = []) :=
  ⟨rfl, request_tool_timeout_fails_as_data {} "search" "query" "r1" rfl⟩

/-- C3. An inbound frame whose payload fails schema validation for its
event kind is dropped: no registered handler is invoked with it, the
escaped `ValidationError` is caught and reported (logged) at the transport
layer instead of terminating the connection, and every subsequent frame is
dispatched exactly as it would have been. -/
theorem invalid_payload_dropped (st : ClientState) (d : RawData)
    (rest : List InFrame) (ev : BaseEvent)
    (hok : BaseEvent.model_validate d = .ok ev)
    (e : PyErr)
    (hbad : TaskAssignedPayload.model_validate ev.payload = .error e) :
    dispatchFrame st (InFrame.taskAssignedIn d) =
      (st, { logged := [eioCatchLog "task_assigned"] }) ∧
    dispatchLoop st (InFrame.taskAssignedIn d :: rest) =
      ((dispatchLoop st rest).1,
        { logged := [eioCatchLog "task_assigned"] } :: (dispatchLoop st rest).2) := by
  have h1 : on_task_assigned st.task_handlers d = .error e := by
    simp [on_task_assigned, hok, hbad]
  refine ⟨?_, ?_⟩
  · simp [dispatchFrame, h1]
  · simp [dispatchLoop, dispatchFrame, h1]

/-- Inbound task_assigned frame whose payload misses required fields. -/
def badTaskData : RawData :=
  { type := some "task_assigned", payload := some [("taskId", JLeaf.jstr "t1")],
    timestamp := some "ts" }

/-- The envelope `badTaskData` validates to. -/
def badTaskEvent : BaseEvent :=
  { type := EventType.task_assigned, payload := [("taskId", JLeaf.jstr "t1")],
    timestamp := "ts" }

/-- Witness for C3: the malformed frame is dropped on a client with one
registered task handler, and no handler runs. -/
theorem invalid_payload_dropped_witness :
    BaseEvent.model_validate badTaskData = .ok badTaskEvent ∧
    TaskAssignedPayload.model_validate badTaskEvent.payload
      = .error PyErr.validationError ∧
    (dispatchFrame { task_handlers := [⟨false⟩] } (InFrame.taskAssignedIn badTaskData) =
      ({ task_handlers := [⟨false⟩] }, { logged := [eioCatchLog "task_assigned"] }) ∧
    dispatchLoop { task_handlers := [⟨false⟩] } (InFrame.taskAssignedIn badTaskData :: []) =
      ((dispatchLoop { task_handlers := [⟨false⟩] } []).1,
        { logged := [eioCatchLog "task_assigned"] }
          :: (dispatchLoop { task_handlers := [⟨false⟩] } []).2)) :=
  ⟨by decide, by decide,
    invalid_payload_dropped { task_handlers := [⟨false⟩] } badTaskData []
      badTaskEvent (by decide) PyErr.validationError (by decide)⟩

/-- C4. On a validly decoded frame, every registered handler is invoked in
order even when some raise: a raising handler is caught and logged (one log
line per raiser), the remaining handlers still run, and the receive loop
dispatches the following frames exactly as it would have — the connection
continues. -/
theorem handler_errors_isolated (st : ClientState) (d : RawData)
    (rest : List InFrame) (ev : BaseEvent)
    (hok : BaseEvent.model_validate d = .ok ev)
    (p : TaskAssignedPayload)
    (hp : TaskAssignedPayload.model_validate ev.payload = .ok p) :
    (dispatchFrame st (InFrame.taskAssignedIn d)).2.invoked
        = List.range st.task_handlers.length ∧
    (dispatchFrame st (InFrame.taskAssignedIn d)).2.logged.length
        = (st.task_handlers.filter (fun a => a.raises)).length ∧
    dispatchLoop st (InFrame.taskAssignedIn d :: rest)
        = ((dispatchLoop st rest).1,
            (dispatchFrame st (InFrame.taskAssignedIn d)).2
              :: (dispatchLoop st rest).2) := by
  have h1 : on_task_assigned st.task_handlers d
      = .ok (runHandlers "Task handler error" st.task_handlers) := by
    simp [on_task_assigned, hok, hp]
  refine ⟨?_, ?_, ?_⟩
  · simp [dispatchFrame, h1, runHandlers_invoked]
  · simp [dispatchFrame, h1, runHandlers, runHandlersFrom_logged]
  · simp [dispatchLoop, dispatchFrame, h1]

/-- Payload object with every required TaskAssigned field present. -/
def goodTaskObj : JObj :=
  [("taskId", JLeaf.jstr "t1"), ("projectMappingId", JLeaf.jstr "pm"),
   ("clickupTaskId", JLeaf.jstr "cu"), ("slackChannelId", JLeaf.jstr "ch"),
   ("slackThreadTs", JLeaf.jstr "th"), ("title", JLeaf.jstr "T"),
   ("assignedAt", JLeaf.jstr "at")]

/-- Valid inbound task_assigned frame. -/
def goodTaskData : RawData :=
  { type := some "task_assigned", payload := some goodTaskObj,
    timestamp := some "ts" }

/-- The envelope `goodTaskData` validates to. -/
def goodTaskEvent : BaseEvent :=
  { type := EventType.task_assigned, payload := goodTaskObj, timestamp := "ts" }

/-- The payload `goodTaskObj` validates to. -/
def goodTaskPayload : TaskAssignedPayload :=
  { task_id := "t1", project_mapping_id := "pm", clickup_task_id := "cu",
    slack_channel_id := "ch", slack_thread_ts := "th", title := "T",
    description := none, assigned_at := "at" }

/-- Client with a raising first handler and a second handler behind it. -/
def twoHandlerClient : ClientState := { task_handlers := [⟨true⟩, ⟨false⟩] }

/-- Witness for C4: with a raising handler followed by a quiet one, both
are invoked, one error line is logged and the loop goes on. -/
theorem handler_errors_isolated_witness :
    BaseEvent.model_validate goodTaskData = .ok goodTaskEvent ∧
    TaskAssignedPayload.model_validate goodTaskEvent.payload = .ok goodTaskPayload ∧
    ((dispatchFrame twoHandlerClient (InFrame.taskAssignedIn goodTaskData)).2.invoked
        = List.range twoHandlerClient.task_handlers.length ∧
     (dispatchFrame twoHandlerClient (InFrame.taskAssignedIn goodTaskData)).2.logged.length
        = (twoHandlerClient.task_handlers.filter (fun a => a.raises)).length ∧
     dispatchLoop twoHandlerClient (InFrame.taskAssignedIn goodTaskData :: [])
        = ((dispatchLoop twoHandlerClient []).1,
            (dispatchFrame twoHandlerClient (InFrame.taskAssignedIn goodTaskData)).2
              :: (dispatchLoop twoHandlerClient []).2)) :=
  ⟨by decide, by decide,
    handler_errors_isolated twoHandlerClient goodTaskData [] goodTaskEvent
      (by decide) goodTaskPayload (by decide)⟩

/-- C8. On an inbound `tool_result` frame whose requestId is pending, the
pending future is resolved (and the entry removed) strictly before any
generic observer handler is invoked: the action trace starts with the
resolution and only then lists the observer calls. -/
theorem tool_result_resolves_before_observers (st : ClientState) (d : RawData)
    (ev : BaseEvent) (hok : BaseEvent.model_validate d = .ok ev)
    (p : ToolResultPayload)
    (hp : ToolResultPayload.model_validate ev.payload = .ok p)
    (hpend : st.pending_tools.contains p.request_id = true) :
    ∃ st1 o, on_tool_result st d = .ok (st1, o) ∧
      o.delivered = some p ∧
      st1.pending_tools = st.pending_tools.erase p.request_id ∧
      o.actions = DispatchAction.resolveFuture p.request_id ::
        (List.range st.tool_result_handlers.length).map DispatchAction.observerCall := by
  have h1 : on_tool_result st d = .ok
      ({ st with pending_tools := st.pending_tools.erase p.request_id },
        { invoked := (runHandlers "Tool result handler error" st.tool_result_handlers).1,
          logged := (runHandlers "Tool result handler error" st.tool_result_handlers).2,
          delivered := some p,
          actions := [DispatchAction.resolveFuture p.request_id]
            ++ (runHandlers "Tool result handler error" st.tool_result_handlers).1.map
                DispatchAction.observerCall }) := by
    have hmem : p.request_id ∈ st.pending_tools := by simpa using hpend
    simp [on_tool_result, hok, hp, hmem]
  exact ⟨_, _, h1, rfl, rfl, by simp [runHandlers_invoked]⟩

/-- Valid inbound tool_result frame for request "r1". -/
def toolResultData : RawData :=
  { type := some "tool_result",
    payload := some [("requestId", JLeaf.jstr "r1"), ("success", JLeaf.jbool true)],
    timestamp := some "ts" }

/-- The envelope `toolResultData` validates to. -/
def toolResultEvent : BaseEvent :=
  { type := EventType.tool_result,
    payload := [("requestId", JLeaf.jstr "r1"), ("success", JLeaf.jbool true)],
    timestamp := "ts" }

/-- The payload `toolResultData` carries. -/
def toolResultPayloadR1 : ToolResultPayload :=
  { request_id := "r1", success := true, result := none, error := none }

/-- Client with "r1" pending and one observer handler registered. -/
def pendingClient : ClientState :=
  { pending_tools := ["r1"], tool_result_handlers := [⟨false⟩] }

/-- Witness for C8 on a client with "r1" pending and one observer. -/
theorem tool_result_resolves_before_observers_witness :
    BaseEvent.model_validate toolResultData = .ok toolResultEvent ∧
    ToolResultPayload.model_validate toolResultEvent.payload = .ok toolResultPayloadR1 ∧
    pendingClient.pending_tools.contains toolResultPayloadR1.request_id = true ∧
    (∃ st1 o, on_tool_result pendingClient toolResultData = .ok (st1, o) ∧
      o.delivered = some toolResultPayloadR1 ∧
      st1.pending_tools = pendingClient.pending_tools.erase toolResultPayloadR1.request_id ∧
      o.actions = DispatchAction.resolveFuture toolResultPayloadR1.request_id ::
        (List.range pendingClient.tool_result_handlers.length).map
          DispatchAction.observerCall) :=
  ⟨by decide, by decide, by decide,
    tool_result_resolves_before_observers pendingClient toolResultData
      toolResultEvent (by decide) toolResultPayloadR1 (by decide) (by decide)⟩

/-- C5. When the auth endpoint answers a first `connect()` with a non-2xx
status, `connect` surfaces the `HTTPStatusError` carrying that status and
never reaches the WebSocket handshake. -/
theorem auth_failure_no_handshake (st : ClientState) (resp : AuthResponse)
    (h : ¬ (200 ≤ resp.status ∧ resp.status ≤ 299)) :
    (connect st resp).2 = .error (PyErr.httpStatusError resp.status) ∧
    ConnectEffect.wsConnect ∉ (connect st resp).1.2 := by
  have ha : _authenticate resp = .error (PyErr.httpStatusError resp.status) := by
    simp [_authenticate, raise_for_status, h]
  exact ⟨by simp [connect, ha], by simp [connect, ha]⟩

/-- Witness for C5 at HTTP 401. -/
theorem auth_failure_no_handshake_witness :
    ¬ (200 ≤ 401 ∧ 401 ≤ 299) ∧
    ((connect {} ⟨401, ""⟩).2 = .error (PyErr.httpStatusError 401) ∧
      ConnectEffect.wsConnect ∉ (connect {} ⟨401, ""⟩).1.2) :=
  ⟨by decide, auth_failure_no_handshake {} ⟨401, ""⟩ (by decide)⟩

/-- C6 (code behaviour at the failing input): `disconnect` leaves
`_pending_tools` untouched, so a request pending at disconnect time stays
in the map with its future unresolved, contradicting the claim that
pending requests are failed out. -/
theorem disconnect_leaves_pending_dangling :
    (∀ st : ClientState, (disconnect st).pending_tools = st.pending_tools) ∧
    (disconnect { pending_tools := ["r1"] }).pending_tools = ["r1"] :=
  ⟨fun _ => rfl, rfl⟩

/-- C7. Dispatching an inbound heartbeat frame emits exactly one outbound
heartbeat, invokes no other handler work, and in the serial receive loop
this outcome is complete before any later frame's dispatch begins. -/
theorem heartbeat_answered_first (st : ClientState) (d : RawData)
    (rest : List InFrame) :
    dispatchFrame st (InFrame.heartbeatIn d) =
      (st, { emitted := [OutFrame.heartbeatOut true ""] }) ∧
    dispatchLoop st (InFrame.heartbeatIn d :: rest) =
      ((dispatchLoop st rest).1,
        { emitted := [OutFrame.heartbeatOut true ""] } :: (dispatchLoop st rest).2) :=
  ⟨rfl, rfl⟩

/-- C9 counterexample: after a handshake that assigned "agent-1",
`disconnect()` completes with `agent_id` still set. -/
theorem agent_id_not_cleared_on_disconnect :
    (disconnect (on_connected {} ⟨"Connected to Nexus", "agent-1", "t0"⟩).1).agent_id
      ≠ none := by
  decide

/-- C9 (amended). The server-assigned AgentIdentity is set on each
successful handshake acknowledgment; `disconnect()` clears the connected
flag but not `agent_id`, which retains the last assigned value until the
next handshake overwrites it. -/
theorem agent_id_set_on_ack_retained_on_disconnect (st : ClientState)
    (resp : ConnectedResponse) :
    (on_connected st resp).1.agent_id = some resp.agent_id ∧
    (disconnect (on_connected st resp).1).agent_id = some resp.agent_id ∧
    (disconnect (on_connected st resp).1).connected = false :=
  ⟨rfl, rfl, rfl⟩

/-- C10. `update_status` with a status string outside the `AgentStatus`
enum raises `ValueError` at the coercion, before any frame is built or
emitted: the client state is unchanged and nothing is sent. -/
theorem invalid_status_raises_before_emit (st : ClientState) (status : String)
    (task_id message : Option String)
    (h1 : status ≠ "idle") (h2 : status ≠ "working") (h3 : status ≠ "error") :
    update_status st status task_id message
      = (st, [], some (PyErr.valueError status)) := by
  simp [update_status, AgentStatus.ofString, h1, h2, h3]

/-- Witness for C10 at the status string "busy". -/
theorem invalid_status_raises_before_emit_witness :
    ("busy" ≠ "idle" ∧ "busy" ≠ "working" ∧ "busy" ≠ "error") ∧
    update_status {} "busy" none none = ({}, [], some (PyErr.valueError "busy")) :=
  ⟨⟨by decide, by decide, by decide⟩,
    invalid_status_raises_before_emit {} "busy" none none
      (by decide) (by decide) (by decide)⟩

end Oblivion
